import Mathlib

/-!
Verification of the backend supervisor in `src/frontend/src-tauri/src/lib.rs`.

The source spawns a backend sidecar process, watches its stdout for
readiness markers, runs an independent HTTP health-probing loop with
exponential backoff against a shared `ready : Arc<Mutex<bool>>` flag,
and kills the child process when the window is destroyed.  The
definitions below are a shallow embedding of that code: strings stand
for output lines and URLs, `Nat` for process handles and HTTP status
codes, and the probing loop is written as a fuel-indexed recursion
whose fuel is exactly the remaining attempt budget (`MAX_ATTEMPTS -
attempt`).  Network and concurrency effects are passed in as explicit
environments (`probe : Nat → ProbeOutcome` for the per-attempt HTTP
result, `ext : Nat → Bool` for writes to the shared flag made by other
tasks that are visible at the attempt's flag check).
-/

namespace QkdLab

/-! ### Substring containment (Rust `str::contains`) -/

/-- Does `pat` match at the head of `s`? -/
def matchesAt : List Char → List Char → Bool
  | [], _ => true
  | _ :: _, [] => false
  | p :: ps, c :: cs => p == c && matchesAt ps cs

/-- Does `pat` occur anywhere in `s`? -/
def hasSubAux (pat : List Char) : List Char → Bool
  | [] => matchesAt pat []
  | c :: cs => matchesAt pat (c :: cs) || hasSubAux pat cs

/-- Rust `line.contains(pat)`: substring containment. -/
def strContainsSub (line pat : String) : Bool :=
  hasSubAux pat.data line.data

/-! ### OutputMonitor (lib.rs lines 44-75)

For each stdout line the monitor checks three marker substrings and, on a
match, writes `true` into the shared flag; otherwise the flag is untouched.
-/

/-- The marker test from lib.rs lines 54-56:
`output.contains("Uvicorn running on") || output.contains("Listening on") ||
output.contains("API Docs")`. -/
def containsMarker (line : String) : Bool :=
  strContainsSub line "Uvicorn running on" ||
  strContainsSub line "Listening on" ||
  strContainsSub line "API Docs"

/-- Effect of one stdout line on the shared readiness flag
(lib.rs lines 49-61): set to `true` on a marker match, unchanged otherwise. -/
def stepStdout (flag : Bool) (line : String) : Bool :=
  if containsMarker line then true else flag

/-! ### Readiness-setting events (for the monotonicity invariant)

Every write any component performs on the shared flag: the OutputMonitor
marker write (lib.rs line 58), the prober's success write (line 132) and
the prober's forced write on exhaustion (line 153).  The prober's
early-exit check (line 124) only reads and is not an event.
-/

inductive ReadinessEvent where
  | stdoutLine (line : String)
  | probeSuccess
  | forcedReady
deriving DecidableEq, Repr

/-- Apply one readiness-setting event to the shared flag. -/
def applyEvent (flag : Bool) : ReadinessEvent → Bool
  | .stdoutLine line => stepStdout flag line
  | .probeSuccess => true
  | .forcedReady => true

/-- Apply a sequence of readiness-setting events, in order. -/
def applyEvents (flag : Bool) (es : List ReadinessEvent) : Bool :=
  es.foldl applyEvent flag

/-! ### BackendState, termination and startup (lib.rs lines 7-10, 20-41, 94-106)

`BackendState` holds an optional child-process handle and the readiness
flag.  The window-destroyed handler takes the handle out (leaving `None`)
and kills it if it was present; we record the kill signals issued as the
list of handles killed.  The setup path spawns the sidecar unconditionally
and installs the new handle; we record how many processes it spawns.
-/

structure BackendState where
  child : Option Nat
  ready : Bool
deriving DecidableEq, Repr

/-- The window-destroyed handler (lib.rs lines 94-106): `child.take()`,
then `kill()` on the taken handle if there was one.  Returns the new
state and the list of handles that received a kill signal. -/
def terminate (s : BackendState) : BackendState × List Nat :=
  match s.child with
  | some pid => ({ s with child := none }, [pid])
  | none => (s, [])

/-- The setup/startup path (lib.rs lines 20-41): spawns the sidecar
(always, with no check of an existing handle) and stores the new child
handle.  Returns the new state and the number of processes spawned by
this call.  There is no error channel for an already-installed handle in
the source. -/
def start (s : BackendState) (newPid : Nat) : BackendState × Nat :=
  ({ s with child := some newPid }, 1)

/-! ### perform_health_check (lib.rs lines 157-177)

The environment `resp : String → Option Nat` gives, for each URL, the
status code of its response, or `none` when the request fails (connection
error or the 1-second timeout).  The loop tries the URLs in order and
returns `Ok(status.is_success())` for the first one that responds;
if none responds it returns an error.
-/

/-- The three health-check URLs, in the order the source tries them. -/
def healthUrls : List String :=
  ["http://localhost:8000/health",
   "http://127.0.0.1:8000/health",
   "http://localhost:8000/docs"]

/-- reqwest `StatusCode::is_success()`: the 2xx class. -/
def statusIsSuccess (code : Nat) : Bool :=
  decide (200 ≤ code) && decide (code < 300)

/-- The `for url in urls` loop body of `perform_health_check`. -/
def tryUrls (resp : String → Option Nat) : List String → Except String Bool
  | [] => .error "No health endpoints responded"
  | u :: rest =>
    match resp u with
    | some code => .ok (statusIsSuccess code)
    | none => tryUrls resp rest

/-- `perform_health_check` (lib.rs lines 157-177). -/
def perform_health_check (resp : String → Option Nat) : Except String Bool :=
  tryUrls resp healthUrls

/-! ### wait_for_backend_health (lib.rs lines 112-154) -/

/-- Outcome of one probe attempt as consumed by the loop's `match`:
`Ok(true)`, `Ok(false)`, or `Err(_)`. -/
inductive ProbeOutcome where
  | success
  | notReady
  | transportError
deriving DecidableEq, Repr

/-- Which of the three exits the probing loop took. -/
inductive ProberExit where
  | foundReady
  | probeSuccess
  | exhausted
deriving DecidableEq, Repr

/-- Observable result of a run of the probing loop: the final value of
the shared flag as far as the prober guarantees it, the exit taken,
whether the timeout warning was emitted, the number of HTTP probes
issued, the number of loop iterations entered, and the sequence of
inter-attempt sleep delays in milliseconds. -/
structure ProberResult where
  finalReady : Bool
  exitPath : ProberExit
  warned : Bool
  probes : Nat
  attempts : Nat
  delays : List Nat
deriving DecidableEq, Repr

/-- The `while attempt < MAX_ATTEMPTS` loop of `wait_for_backend_health`,
indexed by the remaining attempt budget `fuel = MAX_ATTEMPTS - attempt`.
Each entered iteration increments `attempt`, reads the shared flag
(`flag` carries the prober's own view, `ext (attempt+1)` the writes of
other tasks visible at this check), returns on a set flag or a probe
success, and otherwise sleeps `delay` and doubles it capped at 2000.
When the fuel is exhausted the loop exits, the warning is emitted and
the flag is forced to `true` (lib.rs lines 151-153). -/
def waitAux (probe : Nat → ProbeOutcome) (ext : Nat → Bool) :
    Nat → Nat → Nat → Bool → ProberResult
  | 0, _, _, _ => ⟨true, .exhausted, true, 0, 0, []⟩
  | fuel + 1, attempt, delay, flag =>
    if flag || ext (attempt + 1) then
      ⟨true, .foundReady, false, 0, 1, []⟩
    else
      match probe (attempt + 1) with
      | .success => ⟨true, .probeSuccess, false, 1, 1, []⟩
      | .notReady =>
        let r := waitAux probe ext fuel (attempt + 1) (min (delay * 2) 2000) false
        ⟨r.finalReady, r.exitPath, r.warned, r.probes + 1, r.attempts + 1,
          delay :: r.delays⟩
      | .transportError =>
        let r := waitAux probe ext fuel (attempt + 1) (min (delay * 2) 2000) false
        ⟨r.finalReady, r.exitPath, r.warned, r.probes + 1, r.attempts + 1,
          delay :: r.delays⟩

/-- `wait_for_backend_health` (lib.rs lines 112-154): `MAX_ATTEMPTS = 30`,
`INITIAL_DELAY_MS = 200`, `MAX_DELAY_MS = 2000`, starting at `attempt = 0`. -/
def wait_for_backend_health (probe : Nat → ProbeOutcome) (ext : Nat → Bool)
    (flag : Bool) : ProberResult :=
  waitAux probe ext 30 0 200 flag

/-- A probe environment in which every attempt fails with a transport
error (all endpoints refuse the connection). -/
def allFail : Nat → ProbeOutcome := fun _ => ProbeOutcome.transportError

/-- An environment with no external writes to the shared flag. -/
def noExt : Nat → Bool := fun _ => false

/-! ### Synchronization discipline of the source (for the concurrency claim)

A transcription of how each mutation site of the shared state accesses
it: through the `Mutex` lock, or through the `*const BackendState as
*mut BackendState` cast inside an `unsafe` block.
-/

inductive AccessMech where
  | mutexLock
  | rawPtrCast
deriving DecidableEq, Repr

structure MutationSite where
  site : String
  field : String
  mech : AccessMech
deriving DecidableEq, Repr

/-- Every site in lib.rs that mutates the shared `BackendState`, with the
mechanism it uses: installing the child handle in setup (lines 36-41)
and taking it in the window-destroyed handler (lines 98-104) both go
through a raw-pointer cast; the three flag writes (lines 58, 132, 153)
go through the `Mutex`. -/
def backendMutationSites : List MutationSite :=
  [⟨"setup_install_child", "child", .rawPtrCast⟩,
   ⟨"window_destroyed_take_child", "child", .rawPtrCast⟩,
   ⟨"output_monitor_set_ready", "ready", .mutexLock⟩,
   ⟨"prober_set_ready", "ready", .mutexLock⟩,
   ⟨"prober_force_ready", "ready", .mutexLock⟩]

/-- The prober's check-then-set on the flag (lib.rs lines 124 and 132):
the check and the set each acquire the lock, but as two separate
acquisitions with the HTTP probe between them, not one critical
section. -/
structure CheckThenSet where
  checkUnderLock : Bool
  setUnderLock : Bool
  singleCriticalSection : Bool
deriving DecidableEq, Repr

/-- Transcription of the prober's flag check (line 124) and success
write (line 132). -/
def proberCheckThenSet : CheckThenSet :=
  ⟨true, true, false⟩

/-! ## Helper lemmas -/

/-- Any single readiness-setting event applied to an already-set flag
leaves it set. -/
theorem applyEvent_true (e : ReadinessEvent) : applyEvent true e = true := by
  cases e with
  | stdoutLine line =>
    simp only [applyEvent, stepStdout]
    split <;> rfl
  | probeSuccess => rfl
  | forcedReady => rfl

/-- The probing loop always leaves the shared flag set when it returns. -/
theorem waitAux_finalReady (probe : Nat → ProbeOutcome) (ext : Nat → Bool) :
    ∀ (fuel attempt delay : Nat) (flag : Bool),
      (waitAux probe ext fuel attempt delay flag).finalReady = true := by
  intro fuel
  induction fuel with
  | zero => intro attempt delay flag; rfl
  | succ n ih =>
    intro attempt delay flag
    simp only [waitAux]
    split
    · rfl
    · split <;> simp [ih]

/-- The probing loop enters at most `fuel` iterations. -/
theorem waitAux_attempts_le (probe : Nat → ProbeOutcome) (ext : Nat → Bool) :
    ∀ (fuel attempt delay : Nat) (flag : Bool),
      (waitAux probe ext fuel attempt delay flag).attempts ≤ fuel := by
  intro fuel
  induction fuel with
  | zero => intro attempt delay flag; exact Nat.le_refl 0
  | succ n ih =>
    intro attempt delay flag
    simp only [waitAux]
    split
    · exact Nat.succ_le_succ (Nat.zero_le n)
    · split
      · exact Nat.succ_le_succ (Nat.zero_le n)
      · simpa using Nat.succ_le_succ (ih _ _ _)
      · simpa using Nat.succ_le_succ (ih _ _ _)

/-- When no probe ever succeeds and nothing external sets the flag, the
loop runs out of fuel, warns and exits via the exhaustion path. -/
theorem waitAux_exhausts (probe : Nat → ProbeOutcome) (ext : Nat → Bool)
    (hp : ∀ n, probe n ≠ ProbeOutcome.success)
    (he : ∀ n, ext n = false) :
    ∀ (fuel attempt delay : Nat),
      (waitAux probe ext fuel attempt delay false).exitPath = ProberExit.exhausted
      ∧ (waitAux probe ext fuel attempt delay false).warned = true := by
  intro fuel
  induction fuel with
  | zero => intro attempt delay; exact ⟨rfl, rfl⟩
  | succ n ih =>
    intro attempt delay
    simp only [waitAux]
    split
    · simp_all
    · split
      · rename_i hsucc
        exact absurd hsucc (hp (attempt + 1))
      · simpa using ih (attempt + 1) (min (delay * 2) 2000)
      · simpa using ih (attempt + 1) (min (delay * 2) 2000)

/-- The generic `tryUrls` loop returns the status test of the first
responding URL, and the fixed error when none responds. -/
theorem tryUrls_spec (resp : String → Option Nat) :
    ∀ urls : List String,
      tryUrls resp urls =
        match (urls.filterMap resp).head? with
        | some code => Except.ok (statusIsSuccess code)
        | none => Except.error "No health endpoints responded" := by
  intro urls
  induction urls with
  | nil => rfl
  | cons u rest ih =>
    simp only [tryUrls, List.filterMap_cons]
    cases h : resp u with
    | none => simpa [h] using ih
    | some code => simp [h]

/-! ## Claims -/

/-- C1: every readiness-setting event performed by the OutputMonitor
(stdout marker match) or the HealthProber (probe success, forced set on
exhaustion) either writes `Ready` or leaves the flag unchanged, and once
the flag is `Ready` no sequence of such events can revert it: the flag
is monotonic, transitioning only `NotReady → Ready`. -/
theorem readiness_flag_monotonic :
    (∀ es : List ReadinessEvent, applyEvents true es = true)
    ∧ ∀ (e : ReadinessEvent) (flag : Bool),
        applyEvent flag e = flag ∨ applyEvent flag e = true := by
  constructor
  · intro es
    induction es with
    | nil => rfl
    | cons e rest ih =>
      simpa [applyEvents, applyEvent_true e] using ih
  · intro e flag
    cases e with
    | stdoutLine line =>
      simp only [applyEvent, stepStdout]
      split
      · exact Or.inr rfl
      · exact Or.inl rfl
    | probeSuccess => exact Or.inr rfl
    | forcedReady => exact Or.inr rfl

/-- C2: calling `terminate` twice in sequence issues exactly one kill
signal: the first call takes the handle out of `BackendState` (leaving
`none`) and kills it, and the second call finds no handle and is a
no-op. -/
theorem terminate_twice_one_kill (s : BackendState) (pid : Nat)
    (h : s.child = some pid) :
    (terminate s).2 = [pid]
    ∧ (terminate s).1.child = none
    ∧ (terminate (terminate s).1).2 = []
    ∧ (terminate (terminate s).1).1 = (terminate s).1
    ∧ ((terminate s).2 ++ (terminate (terminate s).1).2).length = 1 := by
  obtain ⟨c, r⟩ := s
  cases h
  simp [terminate]

/-- Witness for C2 at a concrete state holding handle 7. -/
theorem terminate_twice_one_kill_witness :
    (terminate ⟨some 7, false⟩).2 = [7]
    ∧ (terminate ⟨some 7, false⟩).1.child = none
    ∧ (terminate (terminate ⟨some 7, false⟩).1).2 = []
    ∧ (terminate (terminate ⟨some 7, false⟩).1).1 = (terminate ⟨some 7, false⟩).1
    ∧ ((terminate ⟨some 7, false⟩).2
        ++ (terminate (terminate ⟨some 7, false⟩).1).2).length = 1 :=
  terminate_twice_one_kill ⟨some 7, false⟩ 7 rfl

/-- C3: if the probing loop exits by attempt exhaustion (every attempt
returns a transport error or a non-success status and the flag is never
set externally at an attempt boundary), it emits the timeout warning and
forces the flag to `Ready`, so the flag is not left `NotReady` when the
prober finishes. -/
theorem exhaustion_forces_ready (probe : Nat → ProbeOutcome) (ext : Nat → Bool)
    (hp : ∀ n, probe n ≠ ProbeOutcome.success)
    (he : ∀ n, ext n = false) :
    (wait_for_backend_health probe ext false).exitPath = ProberExit.exhausted
    ∧ (wait_for_backend_health probe ext false).warned = true
    ∧ (wait_for_backend_health probe ext false).finalReady = true :=
  ⟨(waitAux_exhausts probe ext hp he 30 0 200).1,
   (waitAux_exhausts probe ext hp he 30 0 200).2,
   waitAux_finalReady probe ext 30 0 200 false⟩

/-- Witness for C3: all probes fail with a transport error and no
external write ever happens. -/
theorem exhaustion_forces_ready_witness :
    (∀ n, allFail n ≠ ProbeOutcome.success)
    ∧ (∀ n, noExt n = false)
    ∧ ((wait_for_backend_health allFail noExt false).exitPath = ProberExit.exhausted
       ∧ (wait_for_backend_health allFail noExt false).warned = true
       ∧ (wait_for_backend_health allFail noExt false).finalReady = true) :=
  ⟨fun _ h => ProbeOutcome.noConfusion h,
   fun _ => rfl,
   exhaustion_forces_ready allFail noExt
     (fun _ h => ProbeOutcome.noConfusion h) (fun _ => rfl)⟩

/-- C4: in a run where no attempt succeeds, the inter-attempt sleep
delays are 200, 400, 800, 1600, then 2000 capped from the 5th attempt
onward, and the loop enters at most 30 attempts before forcing
readiness. -/
theorem backoff_delay_sequence :
    (wait_for_backend_health allFail noExt false).delays
        = (List.range 30).map (fun i => min (200 * 2 ^ i) 2000)
    ∧ (wait_for_backend_health allFail noExt false).delays
        = [200, 400, 800, 1600] ++ List.replicate 26 2000
    ∧ ∀ (probe : Nat → ProbeOutcome) (ext : Nat → Bool) (flag : Bool),
        (wait_for_backend_health probe ext flag).attempts ≤ 30 :=
  ⟨by decide, by decide,
   fun probe ext flag => waitAux_attempts_le probe ext 30 0 200 flag⟩

/-- C5: processing a stdout line sets the readiness flag exactly when
the line contains one of the three marker substrings, and leaves the
flag unchanged otherwise: the new flag is the old flag OR-ed with the
marker test, so a marker line makes the flag `Ready` immediately and a
markerless line changes nothing. -/
theorem stdout_marker_sets_ready (flag : Bool) (line : String) :
    stepStdout flag line = (flag || containsMarker line) := by
  simp only [stepStdout]
  cases h : containsMarker line <;> simp [h]

/-- C6: a single probe iteration tries the three endpoints in their
fixed order, stops at the first one that responds, returns `Ok` of the
2xx test of that endpoint's status code, and returns the error exactly
when no endpoint responds. -/
theorem health_check_first_response (resp : String → Option Nat) :
    perform_health_check resp =
      match (healthUrls.filterMap resp).head? with
      | some code => Except.ok (statusIsSuccess code)
      | none => Except.error "No health endpoints responded" :=
  tryUrls_spec resp healthUrls

/-- C7: if at the start of a probing attempt (the loop has fuel left)
the shared flag is observed `Ready`, the loop returns immediately via
the found-ready exit: no further probe is issued, no warning is
emitted and nothing is forced. -/
theorem prober_early_exit (probe : Nat → ProbeOutcome) (ext : Nat → Bool)
    (fuel attempt delay : Nat) (flag : Bool)
    (h : (flag || ext (attempt + 1)) = true) :
    waitAux probe ext (fuel + 1) attempt delay flag =
      ⟨true, ProberExit.foundReady, false, 0, 1, []⟩ := by
  simp [waitAux, h]

/-- Witness for C7: flag already set at the first attempt. -/
theorem prober_early_exit_witness :
    ((true || noExt 1) = true)
    ∧ waitAux allFail noExt 30 0 200 true
        = ⟨true, ProberExit.foundReady, false, 0, 1, []⟩ :=
  ⟨rfl, prober_early_exit allFail noExt 29 0 200 true rfl⟩

/-- C8: the source does not route every mutation of the shared state
through its synchronization primitive: both `child`-handle mutation
sites use the raw `*const BackendState as *mut BackendState` cast
instead of a lock, and the prober's check-then-set on the flag is two
separate lock acquisitions, not one critical section. -/
theorem mutation_bypasses_lock :
    (∃ s ∈ backendMutationSites, s.mech = AccessMech.rawPtrCast)
    ∧ proberCheckThenSet.singleCriticalSection = false := by
  exact ⟨⟨⟨"setup_install_child", "child", .rawPtrCast⟩,
    by simp [backendMutationSites], rfl⟩, rfl⟩

/-- C9 counterexample: with a handle (1) already installed, a second
`start` spawns one more process and installs the new handle (2), rather
than spawning nothing and failing with an `AlreadyStarted` error — no
such error exists in the source. -/
theorem second_start_spawns_counterexample :
    (start ⟨some 1, false⟩ 2).2 = 1
    ∧ (start ⟨some 1, false⟩ 2).1.child = some 2 :=
  ⟨rfl, rfl⟩

/-- C9 amended: calling `start` while a handle is already installed
spawns another process unconditionally and overwrites the stored handle;
the startup path performs no already-started check and has no
`AlreadyStarted` error. -/
theorem second_start_spawns (s : BackendState) (newPid : Nat) :
    (start s newPid).2 = 1 ∧ (start s newPid).1.child = some newPid :=
  ⟨rfl, rfl⟩

/-- C10: whenever `wait_for_backend_health` returns — by finding the
flag already set, by a probe success, or by attempt exhaustion — the
readiness flag is `true`, for every probe environment, every external
write pattern and every initial flag value. -/
theorem prober_always_leaves_ready (probe : Nat → ProbeOutcome)
    (ext : Nat → Bool) (flag : Bool) :
    (wait_for_backend_health probe ext flag).finalReady = true :=
  waitAux_finalReady probe ext 30 0 200 flag

end QkdLab
